import Mathlib

/-!
Verification development for the turbo-orm async query pipeline
(src/turbo_orm/queryset.py, execution.py, utils.py).

The repository code is a thin layer over a SQL-compiling collaborator
(the query object it calls add_q, set_limits, add_ordering, ... on) and
an async database backend.  The layer itself (chaining, cloning, caching,
terminal control flow, hydration) is embedded here directly from the
source.  The collaborator pieces that the claims depend on are modelled
from the spec, as noted in the individual doc comments.
-/

namespace TurboOrm

/-- Database cell values.  NULL is explicit because hydration branches on
all-NULL related columns. -/
inductive Value where
  | intV (i : Int)
  | strV (s : String)
  | nullV
deriving DecidableEq

/-- A raw result row: positional column values, as fetched by the executor. -/
abbrev Row := List Value

/-- Connector of a boolean predicate node (AND / OR). -/
inductive Conn where
  | and
  | or
deriving DecidableEq

/-- Modelled from the spec: the FilterNode predicate tree maintained by the
SQL-compiling collaborator (Comparison leaves, AND/OR nodes with a child
list, and a negation flag on nodes, mirroring the where-tree the source
builds through add_q).  A leaf is a field lookup comparison. -/
inductive WNode where
  | leaf (field : String) (lookup : String) (value : Int)
  | node (conn : Conn) (negated : Bool) (children : List WNode)

/-- Truthiness of a clause: a node with no children is falsy, everything
else is truthy.  Modelled from the spec: an empty predicate contributes
nothing to the filter. -/
def WNode.isEmptyClause : WNode → Bool
  | .node _ _ [] => true
  | _ => false

/-- Modelled from the spec: adding a clause to a node with connector
`conn` flattens a non-negated child node whose connector matches (or that
has exactly one child) into the parent child list, so that repeated
filter calls combine by implicit AND into one n-ary And node; any other
clause is appended whole. -/
def nodeAdd (conn : Conn) (children : List WNode) (data : WNode) : List WNode :=
  match data with
  | .node c false cs =>
      if c = conn ∨ cs.length = 1 then children ++ cs else children ++ [data]
  | _ => children ++ [data]

/-- The contribution of a single clause when added to a node with
connector `conn` (the suffix appended by `nodeAdd`). -/
def squashInto (conn : Conn) (data : WNode) : List WNode :=
  match data with
  | .node c false cs =>
      if c = conn ∨ cs.length = 1 then cs else [data]
  | _ => [data]

mutual
/-- Modelled from the spec: resolving a predicate object into a where
clause.  A fresh target node is created with the predicate connector and
negation, and each child clause is resolved recursively and added to the
target (empty child clauses are skipped). -/
def buildTarget : WNode → WNode
  | .leaf f l v => .leaf f l v
  | .node conn neg cs => .node conn neg (buildTargets conn cs)

/-- Resolve and accumulate a list of child predicates into the child list
of a target node with connector `conn`. -/
def buildTargets (conn : Conn) : List WNode → List WNode
  | [] => []
  | c :: cs =>
      (let t := buildTarget c
       if t.isEmptyClause then [] else squashInto conn t) ++ buildTargets conn cs
end

/-- Modelled from the spec: the collaborator operation the source calls as
query.add_q(predicate).  The predicate is resolved into a clause and, when
non-empty, AND-combined into the top-level where children. -/
def addQ (w : List WNode) (q : WNode) : List WNode :=
  let clause := buildTarget q
  if clause.isEmptyClause then w else nodeAdd .and w clause

/-- Negating a predicate object flips its negation flag (the source calls
this through the tilde operator in exclude). -/
def qNeg : WNode → WNode
  | .leaf f l v => .node .and true [.leaf f l v]
  | .node c n cs => .node c (!n) cs

/-- An AND predicate object with exactly the two given children, as built
by combining two predicates with the And connector. -/
def qAnd2 (p1 p2 : WNode) : WNode := .node .and false [p1, p2]

/-- A keyword-style predicate object: an AND node over comparison leaves,
one leaf per field lookup. -/
def qOfKwargs (pairs : List (String × String × Int)) : WNode :=
  .node .and false (pairs.map (fun p => .leaf p.1 p.2.1 p.2.2))

/-- The suffix a predicate contributes to the top-level where children
when added through addQ. -/
def qContrib (q : WNode) : List WNode :=
  if (buildTarget q).isEmptyClause then [] else squashInto .and (buildTarget q)

mutual
/-- Modelled from the spec: WHERE clause text for a single clause.
Comparisons become infix text, nodes become parenthesized infix joins of
their children, a negated node is wrapped in NOT. -/
def wsql : WNode → String
  | .leaf f l v => f ++ (" ") ++ l ++ (" ") ++ toString v
  | .node conn neg cs =>
      let sep := match conn with
        | .and => " AND "
        | .or => " OR "
      let s := String.intercalate sep (wsqls cs)
      if neg then ("NOT (") ++ s ++ (")")
      else if cs.length > 1 then ("(") ++ s ++ (")")
      else s

/-- WHERE clause text of each clause in a list. -/
def wsqls : List WNode → List String
  | [] => []
  | c :: cs => wsql c :: wsqls cs
end

/-- WHERE clause text of the top-level where children (an implicit AND). -/
def whereSql (cs : List WNode) : String :=
  if cs.isEmpty then ("") else (" WHERE ") ++ wsql (.node .and false cs)

/-- The query-specification state held by the SQL-compiling collaborator
object stored in AsyncQuerySet.query.  Fields mirror exactly the state the
source touches: the where children, the ordering terms and the standard
ordering flag, the limit marks, distinct, select-related, deferred and
immediate loading, values projection and annotation aliases. -/
structure Query where
  tableName : String
  whereChildren : List WNode := []
  orderBy : List String := []
  standardOrdering : Bool := true
  lowMark : Int := 0
  highMark : Option Int := none
  distinctOn : List String := []
  distinctFlag : Bool := false
  selectRel : List String := []
  selectRelAll : Bool := false
  immediateLoad : Option (List String) := none
  deferredLoad : List String := []
  valuesFields : Option (List String) := none
  annotAliases : List String := []

/-- query.chain(): a structural copy of the specification, so that writes
to the clone never reach the original (copy-on-write chaining). -/
def Query.chain (q : Query) : Query := q

/-- query.add_q(predicate) on the specification state. -/
def Query.addPred (q : Query) (p : WNode) : Query :=
  { q with whereChildren := addQ q.whereChildren p }

/-- query.clear_ordering(force=True): drop all ordering terms. -/
def Query.clearOrdering (q : Query) : Query := { q with orderBy := [] }

/-- query.add_ordering(*fields): append ordering terms. -/
def Query.addOrdering (q : Query) (fields : List String) : Query :=
  { q with orderBy := q.orderBy ++ fields }

/-- query.set_limits(low, high), with the accumulation and clamping the
collaborator applies when marks are already set: a new high mark is
low_mark + high clamped by an existing high mark, then a new low mark is
low_mark + low clamped by the (possibly new) high mark. -/
def Query.setLimits (q : Query) (low high : Option Int) : Query :=
  let q1 := match high with
    | some h =>
        match q.highMark with
        | some hm => { q with highMark := some (min hm (q.lowMark + h)) }
        | none => { q with highMark := some (q.lowMark + h) }
    | none => q
  match low with
  | some l =>
      match q1.highMark with
      | some hm => { q1 with lowMark := min hm (q1.lowMark + l) }
      | none => { q1 with lowMark := q1.lowMark + l }
  | none => q1

/-- query.add_distinct_fields(*fields): replace the distinct fields and
set the distinct flag. -/
def Query.addDistinctFields (q : Query) (fields : List String) : Query :=
  { q with distinctOn := fields, distinctFlag := true }

/-- query.add_select_related(fields): declare relation paths to resolve
via JOIN.  Modelled from the spec: the paths accumulate. -/
def Query.addSelectRelated (q : Query) (fields : List String) : Query :=
  { q with selectRel := q.selectRel ++ fields }

/-- query.add_immediate_loading(fields): restrict the loaded columns;
modelled from the spec: the last application wins. -/
def Query.addImmediateLoading (q : Query) (fields : List String) : Query :=
  { q with immediateLoad := some fields }

/-- query.add_deferred_loading(fields): exclude columns from loading. -/
def Query.addDeferredLoading (q : Query) (fields : List String) : Query :=
  { q with deferredLoad := q.deferredLoad ++ fields }

/-- query.set_values(fields): switch to a values projection. -/
def Query.setValues (q : Query) (fields : List String) : Query :=
  { q with valuesFields := some fields }

/-- query.add_annotation(expr, alias): record an annotation alias. -/
def Query.addAnnot (q : Query) (a : String) : Query :=
  { q with annotAliases := q.annotAliases ++ [a] }

/-- Direction flip of one ordering term: a leading descending marker is
removed, otherwise one is added. -/
def flipDir (f : String) : String :=
  if f.startsWith ("-") then f.drop 1 else ("-") ++ f

/-- Modelled from the spec: the ordering the compiler emits.  When the
standard-ordering flag is cleared, the direction of each existing ordering
term is reversed; no terms are added or removed. -/
def Query.effOrdering (q : Query) : List String :=
  if q.standardOrdering then q.orderBy else q.orderBy.map flipDir

/-- ORDER BY text of one term. -/
def dirSql (f : String) : String :=
  if f.startsWith ("-") then (f.drop 1) ++ (" DESC") else f ++ (" ASC")

/-- ORDER BY clause text. -/
def orderSql (q : Query) : String :=
  if q.effOrdering.isEmpty then ("")
  else (" ORDER BY ") ++ String.intercalate (", ") (q.effOrdering.map dirSql)

/-- LIMIT / OFFSET clause text. -/
def limitSql (q : Query) : String :=
  let offs := if q.lowMark = 0 then ("") else (" OFFSET ") ++ toString q.lowMark
  match q.highMark with
  | some h => (" LIMIT ") ++ toString (h - q.lowMark) ++ offs
  | none => offs

/-- Modelled from the spec: the parameterized SELECT statement the
compiler produces for a specification (columns elided; the claims compare
whole statements, and column selection depends only on fields the chain
operations never silently change). -/
def Query.compileSql (q : Query) : String :=
  ("SELECT * FROM ") ++ q.tableName ++ whereSql q.whereChildren ++ orderSql q ++ limitSql q

/-- Hydrated entity instance: database field values, the relation slots
set by hydration (a slot holds none for an outer-join miss), and the
relation cache written alongside (the fields_cache the source fills). -/
inductive Inst where
  | mk (fields : List (String × Value)) (rels : List (String × Option Inst))
      (relCache : List (String × Option Inst))

instance : Inhabited Inst := ⟨.mk [] [] []⟩

/-- Field values of an instance. -/
def Inst.fields : Inst → List (String × Value)
  | .mk fs _ _ => fs

/-- Relation slots of an instance. -/
def Inst.rels : Inst → List (String × Option Inst)
  | .mk _ rs _ => rs

/-- Relation cache of an instance. -/
def Inst.relCache : Inst → List (String × Option Inst)
  | .mk _ _ c => c

/-- Model.from_db(using, field_names, values): construct an instance
directly from database names and values, with empty relation slots. -/
def fromDb (names : List String) (vals : List Value) : Inst :=
  .mk (names.zip vals) [] []

/-- AsyncQuerySet state: the wrapped query specification, the database
alias, the stored prefetch lookups, the result cache, plus the entity
metadata the terminal methods read (concrete field names and the object
name used in error messages).  The values and values-list markers are
instance attributes first written by values and values_list; a fresh
instance leaves them unset. -/
structure AsyncQuerySet where
  query : Query
  db : String := "default"
  prefetchLookups : List String := []
  resultCache : Option (List Inst) := none
  modelFields : List String := []
  objectName : String := ""
  iterClass : Option String := none
  flatFlag : Option Bool := none
  namedFlag : Option Bool := none

/-- AsyncQuerySet._clone: a new queryset over a chained copy of the query,
same alias and prefetch lookups.  The result cache is deliberately not
copied, and the instance attributes written only by values and
values_list start unset on the fresh instance. -/
def AsyncQuerySet._clone (self : AsyncQuerySet) : AsyncQuerySet :=
  { query := self.query.chain
    db := self.db
    prefetchLookups := self.prefetchLookups
    resultCache := none
    modelFields := self.modelFields
    objectName := self.objectName
    iterClass := none
    flatFlag := none
    namedFlag := none }

/-- A Python method call on the receiver: the first component is the
receiver after the call (the source writes only to the clone, never to
self), the second component is the returned queryset. -/
abbrev MethodCall := AsyncQuerySet × AsyncQuerySet

/-- AsyncQuerySet.all. -/
def AsyncQuerySet.allM (self : AsyncQuerySet) : MethodCall :=
  (self, self._clone)

/-- AsyncQuerySet.filter: clone, then add the predicate to the clone. -/
def AsyncQuerySet.filterM (self : AsyncQuerySet) (p : WNode) : MethodCall :=
  let clone := self._clone
  (self, { clone with query := clone.query.addPred p })

/-- AsyncQuerySet.exclude: clone, then add the negated predicate. -/
def AsyncQuerySet.excludeM (self : AsyncQuerySet) (p : WNode) : MethodCall :=
  let clone := self._clone
  (self, { clone with query := clone.query.addPred (qNeg p) })

/-- AsyncQuerySet.order_by: clone, clear the ordering, add the fields. -/
def AsyncQuerySet.orderByM (self : AsyncQuerySet) (fields : List String) : MethodCall :=
  let clone := self._clone
  (self, { clone with query := (clone.query.clearOrdering).addOrdering fields })

/-- AsyncQuerySet.distinct. -/
def AsyncQuerySet.distinctM (self : AsyncQuerySet) (fields : List String) : MethodCall :=
  let clone := self._clone
  (self, { clone with query := clone.query.addDistinctFields fields })

/-- AsyncQuerySet.select_related: with fields, declare them; with no
fields, set the select-related-everything flag. -/
def AsyncQuerySet.selectRelatedM (self : AsyncQuerySet) (fields : List String) : MethodCall :=
  let clone := self._clone
  if fields.isEmpty then
    (self, { clone with query := { clone.query with selectRelAll := true } })
  else
    (self, { clone with query := clone.query.addSelectRelated fields })

/-- AsyncQuerySet.prefetch_related: append the lookups on the clone. -/
def AsyncQuerySet.prefetchRelatedM (self : AsyncQuerySet) (lookups : List String) : MethodCall :=
  let clone := self._clone
  (self, { clone with prefetchLookups := clone.prefetchLookups ++ lookups })

/-- AsyncQuerySet.only. -/
def AsyncQuerySet.onlyM (self : AsyncQuerySet) (fields : List String) : MethodCall :=
  let clone := self._clone
  (self, { clone with query := clone.query.addImmediateLoading fields })

/-- AsyncQuerySet.defer. -/
def AsyncQuerySet.deferM (self : AsyncQuerySet) (fields : List String) : MethodCall :=
  let clone := self._clone
  (self, { clone with query := clone.query.addDeferredLoading fields })

/-- AsyncQuerySet.values: set the values projection and mark the clone. -/
def AsyncQuerySet.valuesM (self : AsyncQuerySet) (fields : List String) : MethodCall :=
  let clone := self._clone
  (self, { clone with query := clone.query.setValues fields, iterClass := some ("values") })

/-- AsyncQuerySet.values_list. -/
def AsyncQuerySet.valuesListM (self : AsyncQuerySet) (fields : List String)
    (flat named : Bool) : MethodCall :=
  let clone := self._clone
  (self,
   { clone with
      query := clone.query.setValues fields
      iterClass := some ("values_list")
      flatFlag := some flat
      namedFlag := some named })

/-- AsyncQuerySet.annotate: record one annotation alias per expression. -/
def AsyncQuerySet.annotateM (self : AsyncQuerySet) (aliases : List String) : MethodCall :=
  let clone := self._clone
  (self, { clone with query := aliases.foldl Query.addAnnot clone.query })

/-- Python exceptions surfaced by the build-time query API. -/
inductive PyErr where
  | valueError (msg : String)
  | typeError (msg : String)
  | runtimeError (msg : String)
deriving DecidableEq

/-- A subscript key: a slice with optional bounds, or an integer index. -/
inductive SliceKey where
  | slice (start stop : Option Int)
  | idx (i : Int)

/-- AsyncQuerySet.__getitem__: a slice clones and sets limits from
(start or 0, stop) with no sign check; a negative integer index raises
ValueError before any clone is made; a non-negative index sets limits
(k, k+1).  (A key of any other type raises TypeError; the key type here
covers exactly slices and integers.) -/
def AsyncQuerySet.getItemM (self : AsyncQuerySet) (k : SliceKey) :
    Except PyErr MethodCall :=
  match k with
  | .slice start stop =>
      let clone := self._clone
      let start' := start.getD 0
      .ok (self, { clone with query := clone.query.setLimits (some start') stop })
  | .idx i =>
      if i < 0 then
        .error (.valueError ("Negative indexing is not supported"))
      else
        let clone := self._clone
        .ok (self, { clone with query := clone.query.setLimits (some i) (some (i + 1)) })

/-- Apply the limit marks of a specification to an ordered row list, as
LIMIT / OFFSET does: skip low_mark rows, then keep high_mark - low_mark
rows when a high mark is set. -/
def applyLimits (q : Query) (rows : List Row) : List Row :=
  let dropped := rows.drop q.lowMark.toNat
  match q.highMark with
  | some h => dropped.take (h - q.lowMark).toNat
  | none => dropped

/-- Modelled from the spec: compiling and executing a SELECT for a
specification against an abstract table returns the rows matching the
WHERE clause, restricted by the limit marks.  The WHERE semantics is the
backend collaborator and is passed in as the evaluation function of the
top-level where children. -/
def runQuery (evalW : List WNode → Row → Bool) (db : List Row) (q : Query) : List Row :=
  applyLimits q (db.filter (evalW q.whereChildren))

/-- The rows a specification matches: WHERE filtering plus its own limit
marks (what the query denotes, independent of any terminal). -/
def matchingRows (evalW : List WNode → Row → Bool) (db : List Row) (q : Query) : List Row :=
  applyLimits q (db.filter (evalW q.whereChildren))

/-- Integer comparison of one lookup against one cell.  A concrete WHERE
backend used to instantiate the evaluation-function parameter on concrete
inputs. -/
def evalLeafCell (lookup : String) (cell : Value) (v : Int) : Bool :=
  if lookup = ("exact") then decide (cell = .intV v)
  else if lookup = ("lt") then match cell with | .intV c => decide (c < v) | _ => false
  else if lookup = ("lte") then match cell with | .intV c => decide (c ≤ v) | _ => false
  else if lookup = ("gt") then match cell with | .intV c => decide (v < c) | _ => false
  else if lookup = ("gte") then match cell with | .intV c => decide (v ≤ c) | _ => false
  else false

mutual
/-- Evaluate one clause against a positional row, resolving field names
through the schema (the column order of the table). -/
def evalNode (schema : List String) (row : Row) : WNode → Bool
  | .leaf f l v =>
      match schema.indexOf? f with
      | some i => evalLeafCell l (row.getD i .nullV) v
      | none => false
  | .node conn neg cs =>
      let base := match conn with
        | .and => evalNodes schema row cs |>.all id
        | .or => evalNodes schema row cs |>.any id
      if neg then !base else base

/-- Evaluate each clause in a list. -/
def evalNodes (schema : List String) (row : Row) : List WNode → List Bool
  | [] => []
  | c :: cs => evalNode schema row c :: evalNodes schema row cs
end

/-- Concrete WHERE semantics of the top-level where children: their
conjunction. -/
def evalWhere (schema : List String) (cs : List WNode) (row : Row) : Bool :=
  (evalNodes schema row cs).all id

/-- Connection bookkeeping of the executor: how many connections were
acquired and how many were released over the life of the pool. -/
structure ConnTrace where
  acquired : Nat := 0
  released : Nat := 0
deriving DecidableEq

/-- Acquiring a connection from the pool. -/
def acquireConn (t : ConnTrace) : ConnTrace := { t with acquired := t.acquired + 1 }

/-- Releasing (closing) a connection back to the pool. -/
def releaseConn (t : ConnTrace) : ConnTrace := { t with released := t.released + 1 }

/-- Statement failure surfaced by the backend. -/
inductive DbErr where
  | queryExecutionError (detail : String)
deriving DecidableEq

/-- The _get_cursor scope: acquire a connection, run the body on the
cursor, and close the connection in a finally step that runs on both the
normal and the raising exit of the body. -/
def getCursorScope {α : Type} (body : ConnTrace → Except DbErr α × ConnTrace)
    (t : ConnTrace) : Except DbErr α × ConnTrace :=
  let t1 := acquireConn t
  let (r, t2) := body t1
  (r, releaseConn t2)

/-- execute_query, at the connection level: compile the statement, then
inside the cursor scope submit it and fetch all rows.  The backend is the
collaborator that either returns the rows or raises a statement failure. -/
def executeQueryConn (backend : String → Except DbErr (List Row)) (sql : String)
    (t : ConnTrace) : Except DbErr (List Row) × ConnTrace :=
  getCursorScope (fun t1 => (backend sql, t1)) t

/-- rows_to_instances on the plain path (no select_related): one instance
per row, built by from_db from the leading concrete field names and the
leading row values, each truncated to the length of the other. -/
def rowsToInstances (fieldNames : List String) (rows : List Row) : List Inst :=
  rows.map (fun r => fromDb (fieldNames.take r.length) (r.take fieldNames.length))

/-- Errors raised by aget. -/
inductive GetErr where
  | doesNotExist (msg : String)
  | multipleObjectsReturned (msg : String)

/-- The query aget executes: the clone (filtered when extra lookups are
given), with limits set to (0, 2) to detect multiple matches cheaply. -/
def AsyncQuerySet.agetQuery (self : AsyncQuerySet) (extra : Option WNode) : Query :=
  let clone := match extra with
    | some p => (self.filterM p).2
    | none => self._clone
  clone.query.setLimits (some 0) (some 2)

/-- AsyncQuerySet.aget: execute with the 2-row limit; zero rows raise
DoesNotExist, more than one row raises MultipleObjectsReturned, otherwise
the hydrated single instance is returned. -/
def AsyncQuerySet.aget (self : AsyncQuerySet) (evalW : List WNode → Row → Bool)
    (db : List Row) (extra : Option WNode) : Except GetErr Inst :=
  let rows := runQuery evalW db (self.agetQuery extra)
  if rows.isEmpty then
    .error (.doesNotExist (self.objectName ++ (" matching query does not exist.")))
  else if rows.length > 1 then
    .error (.multipleObjectsReturned
      (("get() returned more than one ") ++ self.objectName ++
       (" -- it returned ") ++ toString rows.length ++ ("!")))
  else
    .ok ((rowsToInstances self.modelFields rows).headI)

/-- The query afirst executes: on the clone, inject ascending pk ordering
only when no ordering is set, then one-row limits. -/
def AsyncQuerySet.afirstQuery (self : AsyncQuerySet) : Query :=
  let clone := self._clone
  let q := if clone.query.orderBy.isEmpty
    then clone.query.addOrdering [("pk")]
    else clone.query
  q.setLimits (some 0) (some 1)

/-- The query alast executes: on the clone, inject descending pk ordering
when no ordering is set; otherwise flip the standard-ordering flag, which
reverses the direction of every existing ordering term; then one-row
limits. -/
def AsyncQuerySet.alastQuery (self : AsyncQuerySet) : Query :=
  let clone := self._clone
  let q := if clone.query.orderBy.isEmpty
    then clone.query.addOrdering [("-pk")]
    else { clone.query with standardOrdering := !clone.query.standardOrdering }
  q.setLimits (some 0) (some 1)

/-- AsyncQuerySet.afirst: run the injected-ordering one-row query and
hydrate the row if any. -/
def AsyncQuerySet.afirst (self : AsyncQuerySet) (evalW : List WNode → Row → Bool)
    (db : List Row) : Option Inst :=
  match runQuery evalW db self.afirstQuery with
  | [] => none
  | r :: _ => some (fromDb (self.modelFields.take r.length) (r.take self.modelFields.length))

/-- AsyncQuerySet.alast: run the reversed-ordering one-row query and
hydrate the row if any. -/
def AsyncQuerySet.alast (self : AsyncQuerySet) (evalW : List WNode → Row → Bool)
    (db : List Row) : Option Inst :=
  match runQuery evalW db self.alastQuery with
  | [] => none
  | r :: _ => some (fromDb (self.modelFields.take r.length) (r.take self.modelFields.length))

/-- The COUNT statement execute_count builds: SELECT COUNT(*) over the
table with the WHERE clause of the specification, reusing only the where
children (neither the columns nor the limit marks of the SELECT). -/
def countSql (q : Query) : String :=
  ("SELECT COUNT(*) FROM ") ++ q.tableName ++ whereSql q.whereChildren

/-- execute_count semantics: the number of rows matching the WHERE clause
of the specification.  The limit marks are not consulted. -/
def executeCount (evalW : List WNode → Row → Bool) (db : List Row) (q : Query) : Nat :=
  (db.filter (evalW q.whereChildren)).length

/-- AsyncQuerySet.acount: clone, then execute the COUNT statement. -/
def AsyncQuerySet.acount (self : AsyncQuerySet) (evalW : List WNode → Row → Bool)
    (db : List Row) : Nat :=
  executeCount evalW db self._clone.query

/-- AsyncQuerySet.aexists: clone, set one-row limits, execute, and report
whether any row came back. -/
def AsyncQuerySet.aexists (self : AsyncQuerySet) (evalW : List WNode → Row → Bool)
    (db : List Row) : Bool :=
  let clone := self._clone
  let q := clone.query.setLimits (some 0) (some 1)
  !(runQuery evalW db q).isEmpty

/-- Number of secondary queries the prefetch step issues: none when there
are no lookups or no instances, otherwise at least one per lookup
(modelled as one per lookup level, per the spec). -/
def prefetchQueries (lookups : List String) (instances : List Inst) : Nat :=
  if instances.isEmpty then 0 else lookups.length

/-- AsyncQuerySet.alist, with an explicit query counter: a populated
result cache is returned as is with no query; otherwise the query is
executed once, rows are hydrated, prefetch lookups run their secondary
queries, and the instances are stored in the cache of the instance
itself.  Returns (the instance after the call, the result list, the
number of queries issued by this call). -/
def AsyncQuerySet.alist (self : AsyncQuerySet) (evalW : List WNode → Row → Bool)
    (db : List Row) : AsyncQuerySet × List Inst × Nat :=
  match self.resultCache with
  | some cached => (self, cached, 0)
  | none =>
      let rows := runQuery evalW db self.query
      let instances := rowsToInstances self.modelFields rows
      ({ self with resultCache := some instances }, instances,
       1 + prefetchQueries self.prefetchLookups instances)

/-- AsyncQuerySet.__iter__: synchronous iteration reads the result cache
and raises RuntimeError when the queryset has not been evaluated.  No
database access occurs on either path. -/
def AsyncQuerySet.iterM (self : AsyncQuerySet) : Except PyErr (List Inst) :=
  match self.resultCache with
  | none => .error (.runtimeError
      ("Cannot iterate synchronously over AsyncQuerySet before it has been evaluated."))
  | some cache => .ok cache

/-- AsyncQuerySet.__len__: length of the result cache, RuntimeError when
the queryset has not been evaluated.  No database access occurs on either
path. -/
def AsyncQuerySet.lenM (self : AsyncQuerySet) : Except PyErr Nat :=
  match self.resultCache with
  | none => .error (.runtimeError
      ("Cannot get length of AsyncQuerySet before it has been evaluated."))
  | some cache => .ok cache.length

/-- The column plan branch for one related entity, as the hydrator reads
it: the name of the relation field on the parent (absent when the plan
carries no field), the select indices of the related columns in the row,
and the nested related branches. -/
inductive KlassInfo where
  | mk (fieldName : Option String) (selectIdx : List Nat) (nested : List KlassInfo)

/-- setattr(instance, field_name, value) for a relation slot: the newest
write shadows older ones. -/
def Inst.setRel (i : Inst) (k : String) (v : Option Inst) : Inst :=
  match i with
  | .mk fs rs c => .mk fs ((k, v) :: rs) c

/-- Writing the relation cache entry the hydrator fills next to the
attribute. -/
def Inst.setRelCache (i : Inst) (k : String) (v : Option Inst) : Inst :=
  match i with
  | .mk fs rs c => .mk fs rs ((k, v) :: c)

/-- Read a relation slot (the most recent write). -/
def Inst.getRel (i : Inst) (k : String) : Option (Option Inst) :=
  i.rels.lookup k

/-- Read a relation cache entry (the most recent write). -/
def Inst.getRelCache (i : Inst) (k : String) : Option (Option Inst) :=
  i.relCache.lookup k

mutual
/-- _hydrate_related: hydrate one related branch of the column plan into
the parent instance.  A branch without select indices or without a field
leaves the parent untouched.  When every selected related column is NULL
(an outer-join miss), the relation slot is set to absent and nothing is
constructed or cached.  Otherwise the related instance is built by
from_db from the selected names and values, its own nested branches are
hydrated into it, and it is both set on the parent and recorded in the
relation cache.  (The source attaches the related instance before
hydrating its nested branches into the same object; attaching the fully
hydrated instance yields the same final state.) -/
def hydrateRelated (select : List String) (row : Row) (inst : Inst) : KlassInfo → Inst
  | .mk fieldName selectIdx nested =>
      match fieldName with
      | none => inst
      | some fname =>
          if selectIdx.isEmpty then inst
          else
            let vals := selectIdx.map (fun i => row.getD i .nullV)
            let names := selectIdx.map (fun i => select.getD i (""))
            if vals.all (fun v => decide (v = Value.nullV)) then
              inst.setRel fname none
            else
              let related := hydrateAll select row (fromDb names vals) nested
              (inst.setRel fname (some related)).setRelCache fname (some related)

/-- Hydrate every related branch of a list into the instance, in order. -/
def hydrateAll (select : List String) (row : Row) (inst : Inst) : List KlassInfo → Inst
  | [] => inst
  | info :: infos => hydrateAll select row (hydrateRelated select row inst info) infos
end

/-- _create_instance_from_row: build the main instance from its select
indices, then hydrate each related branch into it. -/
def createInstanceFromRow (select : List String) (row : Row) (mainIdx : List Nat)
    (related : List KlassInfo) : Inst :=
  let names := mainIdx.map (fun i => select.getD i (""))
  let vals := mainIdx.map (fun i => row.getD i .nullV)
  hydrateAll select row (fromDb names vals) related

/-- Concrete entity metadata used to instantiate the theorems below on
executable inputs. -/
def articleFields : List String := [("id"), ("title")]

/-- A concrete queryset over a two-column table, fresh out of the
manager: empty filter, no ordering, no limits, empty result cache. -/
def qs0 : AsyncQuerySet :=
  { query := { tableName := ("articles") }
    modelFields := articleFields
    objectName := ("Article") }

/-- The concrete WHERE backend for the article schema. -/
def evC : List WNode → Row → Bool := evalWhere articleFields

/-- A concrete one-row table. -/
def db1 : List Row := [[.intV 1, .strV ("hello")]]

/-- A concrete three-row table. -/
def db3 : List Row :=
  [[.intV 1, .strV ("a")], [.intV 2, .strV ("b")], [.intV 3, .strV ("c")]]

/-- The queryset produced by slicing qs0 with bounds 5 and 6 through the
subscript operation (the slice path never raises). -/
def qs56 : AsyncQuerySet :=
  match qs0.getItemM (.slice (some 5) (some 6)) with
  | .ok p => p.2
  | .error _ => qs0

/-- A concretely ordered queryset built through order_by. -/
def qsOrd : AsyncQuerySet := (qs0.orderByM [("view_count")]).2

/-- Select-list column names for the hydration fixtures: the parent id
followed by two joined author columns. -/
def selC : List String := [("id"), ("author_id"), ("author_name")]

/-- Column plan branch for the joined author relation. -/
def infoAuthor : KlassInfo := .mk (some ("author")) [1, 2] []

/-- A row whose joined author columns are all NULL (outer-join miss). -/
def rowMiss : Row := [.intV 7, .nullV, .nullV]

/-- A row whose joined author columns are populated. -/
def rowHit : Row := [.intV 7, .intV 4, .strV ("ada")]

/-!  Helper lemmas shared by the claim theorems. -/

/-- Adding a clause to a node appends exactly the clause contribution. -/
theorem nodeAdd_eq_append (conn : Conn) (ch : List WNode) (d : WNode) :
    nodeAdd conn ch d = ch ++ squashInto conn d := by
  cases d with
  | leaf f l v => simp [nodeAdd, squashInto]
  | node c n cs =>
      cases n with
      | false =>
          simp only [nodeAdd, squashInto]
          split <;> rfl
      | true => simp [nodeAdd, squashInto]

/-- addQ appends the clause contribution of the predicate. -/
theorem addQ_eq_append (w : List WNode) (q : WNode) :
    addQ w q = w ++ qContrib q := by
  unfold addQ qContrib
  cases h : (buildTarget q).isEmptyClause with
  | true => simp [h]
  | false => simp [h, nodeAdd_eq_append]

/-- The contribution of a two-child AND predicate is the concatenation of
the contributions of its children. -/
theorem qContrib_and2 (p1 p2 : WNode) :
    qContrib (qAnd2 p1 p2) = qContrib p1 ++ qContrib p2 := by
  have hbt : buildTarget (qAnd2 p1 p2) =
      .node .and false (qContrib p1 ++ qContrib p2) := by
    simp [qAnd2, buildTarget, buildTargets, qContrib]
  rw [qContrib, hbt]
  cases h : qContrib p1 ++ qContrib p2 with
  | nil => simp [WNode.isEmptyClause, squashInto]
  | cons x xs => simp [WNode.isEmptyClause, squashInto]

/-- C2: every chaining operation (filter, exclude, order_by, distinct,
select_related, prefetch_related, only, defer, values, values_list,
annotate, slicing) leaves the receiver untouched — in particular the SQL
compiled from the receiver is unchanged — and returns a queryset built
from a clone whose result cache is empty, never copying or promoting the
parent cache. -/
theorem claim_C2 (qs : AsyncQuerySet) (p : WNode) (fields lookups aliases : List String)
    (flat named : Bool) (s t : Option Int) :
    ((qs.filterM p).1 = qs ∧ (qs.filterM p).2.resultCache = none
      ∧ Query.compileSql (qs.filterM p).1.query = Query.compileSql qs.query)
    ∧ ((qs.excludeM p).1 = qs ∧ (qs.excludeM p).2.resultCache = none)
    ∧ ((qs.orderByM fields).1 = qs ∧ (qs.orderByM fields).2.resultCache = none)
    ∧ ((qs.distinctM fields).1 = qs ∧ (qs.distinctM fields).2.resultCache = none)
    ∧ ((qs.selectRelatedM fields).1 = qs ∧ (qs.selectRelatedM fields).2.resultCache = none)
    ∧ ((qs.prefetchRelatedM lookups).1 = qs
      ∧ (qs.prefetchRelatedM lookups).2.resultCache = none)
    ∧ ((qs.onlyM fields).1 = qs ∧ (qs.onlyM fields).2.resultCache = none)
    ∧ ((qs.deferM fields).1 = qs ∧ (qs.deferM fields).2.resultCache = none)
    ∧ ((qs.valuesM fields).1 = qs ∧ (qs.valuesM fields).2.resultCache = none)
    ∧ ((qs.valuesListM fields flat named).1 = qs
      ∧ (qs.valuesListM fields flat named).2.resultCache = none)
    ∧ ((qs.annotateM aliases).1 = qs ∧ (qs.annotateM aliases).2.resultCache = none)
    ∧ ((qs.getItemM (.slice s t)).map (fun pr => pr.1) = .ok qs
      ∧ (qs.getItemM (.slice s t)).map (fun pr => pr.2.resultCache) = .ok none) := by
  cases hsr : fields.isEmpty <;>
    exact ⟨⟨rfl, rfl, rfl⟩, ⟨rfl, rfl⟩, ⟨rfl, rfl⟩, ⟨rfl, rfl⟩,
      (by simp [AsyncQuerySet.selectRelatedM, hsr, AsyncQuerySet._clone]),
      ⟨rfl, rfl⟩, ⟨rfl, rfl⟩, ⟨rfl, rfl⟩, ⟨rfl, rfl⟩, ⟨rfl, rfl⟩, ⟨rfl, rfl⟩, ⟨rfl, rfl⟩⟩

/-- C5: calling the terminal list-fetch a second time on the same
already-evaluated instance returns the same result list while issuing
zero queries (even against a different database state, showing only the
cache is read); the first call stores the materialized instances in the
result cache. -/
theorem claim_C5 (evalW : List WNode → Row → Bool) (db db2 : List Row)
    (qs : AsyncQuerySet) :
    ((qs.alist evalW db).1.alist evalW db2).2.1 = (qs.alist evalW db).2.1
    ∧ ((qs.alist evalW db).1.alist evalW db2).2.2 = 0
    ∧ (qs.alist evalW db).1.resultCache = some (qs.alist evalW db).2.1 := by
  cases h : qs.resultCache <;> simp [AsyncQuerySet.alist, h]

/-- C9: execute_query acquires exactly one connection and releases it on
every exit path — both when the backend returns rows and when the
statement raises — while the backend outcome itself is propagated
unchanged. -/
theorem claim_C9 (backend : String → Except DbErr (List Row)) (sql : String)
    (t : ConnTrace) :
    (executeQueryConn backend sql t).2.released = t.released + 1
    ∧ (executeQueryConn backend sql t).2.acquired = t.acquired + 1
    ∧ (executeQueryConn backend sql t).1 = backend sql :=
  ⟨rfl, rfl, rfl⟩

/-- C10: on an unevaluated queryset (empty result cache), synchronous
iteration and length raise RuntimeError — both operations take no
database collaborator at all, so no query can be issued and no empty
result is fabricated; after evaluation through the list terminal, both
read exactly the cached results. -/
theorem claim_C10 (qs : AsyncQuerySet) (evalW : List WNode → Row → Bool)
    (db : List Row) :
    (qs.resultCache = none →
      qs.iterM = .error (.runtimeError
        ("Cannot iterate synchronously over AsyncQuerySet before it has been evaluated."))
      ∧ qs.lenM = .error (.runtimeError
        ("Cannot get length of AsyncQuerySet before it has been evaluated.")))
    ∧ ((qs.alist evalW db).1.iterM = .ok (qs.alist evalW db).2.1
      ∧ (qs.alist evalW db).1.lenM = .ok (qs.alist evalW db).2.1.length) := by
  constructor
  · intro h
    simp [AsyncQuerySet.iterM, AsyncQuerySet.lenM, h]
  · cases h : qs.resultCache <;>
      simp [AsyncQuerySet.alist, AsyncQuerySet.iterM, AsyncQuerySet.lenM, h]

/-- C1 counterexample: slicing with a negative bound is not rejected at
build time — the subscript succeeds and the negative start is stored as
the low mark unchanged, refuting that every negative slice bound raises a
build-time invalid-query error. -/
theorem claim_C1_counterexample :
    (qs0.getItemM (.slice (some (-1)) (some 5))).map (fun p => p.2.query.lowMark)
      = .ok (-1)
    ∧ (qs0.getItemM (.slice (some (-1)) (some 5))).isOk = true := by
  exact ⟨rfl, rfl⟩

/-- C1 (amended): a negative integer index is rejected at build time,
before any I/O, by raising ValueError (the source defines no
InvalidQueryError); negative slice bounds are not rejected; a
non-negative index k sets the limit marks to (k, k+1); on a queryset with
no existing limit, slicing with 0 ≤ start ≤ stop sets the marks to
(start, stop), that is offset = start and count = stop - start. -/
theorem claim_C1 (qs : AsyncQuerySet) (i start stop : Int)
    (h1 : qs.query.lowMark = 0) (h2 : qs.query.highMark = none) :
    (i < 0 →
      qs.getItemM (.idx i) = .error (.valueError ("Negative indexing is not supported")))
    ∧ (0 ≤ i →
      (qs.getItemM (.idx i)).map (fun p => (p.2.query.lowMark, p.2.query.highMark))
        = .ok (i, some (i + 1)))
    ∧ (0 ≤ start → start ≤ stop →
      (qs.getItemM (.slice (some start) (some stop))).map
          (fun p => (p.2.query.lowMark, p.2.query.highMark))
        = .ok (start, some stop)) := by
  refine ⟨fun hneg => ?_, fun hpos => ?_, fun hs hss => ?_⟩
  · simp [AsyncQuerySet.getItemM, hneg]
  · have : ¬ i < 0 := by omega
    simp [AsyncQuerySet.getItemM, this, AsyncQuerySet._clone, Query.chain,
      Query.setLimits, h1, h2, Except.map, Prod.ext_iff]
  · simp [AsyncQuerySet.getItemM, AsyncQuerySet._clone, Query.chain,
      Query.setLimits, h1, h2, Except.map, Prod.ext_iff]
    omega

/-- C1 witness: on the fresh concrete queryset, index 2 stores marks
(2, 3) and the slice with bounds 3 and 6 stores marks (3, 6). -/
theorem claim_C1_witness :
    (qs0.getItemM (.idx 2)).map (fun p => (p.2.query.lowMark, p.2.query.highMark))
      = .ok (2, some 3)
    ∧ (qs0.getItemM (.slice (some 3) (some 6))).map
        (fun p => (p.2.query.lowMark, p.2.query.highMark))
      = .ok (3, some 6) := by
  have h := claim_C1 qs0 2 3 6 rfl rfl
  exact ⟨h.2.1 (by decide), h.2.2 (by decide) (by decide)⟩

/-- Resolving a keyword predicate clause leaves its comparison leaves
unchanged. -/
theorem buildTargets_map_leaf (pairs : List (String × String × Int)) :
    buildTargets .and (pairs.map fun pr => WNode.leaf pr.1 pr.2.1 pr.2.2)
      = pairs.map fun pr => WNode.leaf pr.1 pr.2.1 pr.2.2 := by
  induction pairs with
  | nil => rfl
  | cons a as ih =>
      simp [buildTargets, buildTarget, WNode.isEmptyClause, squashInto, ih]

/-- C4: repeated filter calls combine by implicit AND — filtering by p1
and then by p2 yields the very same queryset (hence the same compiled
SQL) as filtering once by the AND predicate of p1 and p2 — and exclude
with a keyword predicate appends the negation of that predicate AND-wise
to the existing where children. -/
theorem claim_C4 (qs : AsyncQuerySet) (p1 p2 : WNode)
    (pairs : List (String × String × Int)) :
    ((qs.filterM p1).2.filterM p2).2 = (qs.filterM (qAnd2 p1 p2)).2
    ∧ Query.compileSql ((qs.filterM p1).2.filterM p2).2.query
        = Query.compileSql (qs.filterM (qAnd2 p1 p2)).2.query
    ∧ (pairs ≠ [] →
        (qs.excludeM (qOfKwargs pairs)).2.query.whereChildren
          = qs.query.whereChildren
            ++ [.node .and true (pairs.map fun pr => .leaf pr.1 pr.2.1 pr.2.2)]) := by
  have hw : addQ (addQ qs.query.whereChildren p1) p2
      = addQ qs.query.whereChildren (qAnd2 p1 p2) := by
    rw [addQ_eq_append, addQ_eq_append, addQ_eq_append, qContrib_and2,
      List.append_assoc]
  have h1 : ((qs.filterM p1).2.filterM p2).2 = (qs.filterM (qAnd2 p1 p2)).2 := by
    simp [AsyncQuerySet.filterM, AsyncQuerySet._clone, Query.chain, Query.addPred, hw]
  refine ⟨h1, by rw [h1], fun hp => ?_⟩
  have hb : buildTarget (qNeg (qOfKwargs pairs))
      = .node .and true (pairs.map fun pr => .leaf pr.1 pr.2.1 pr.2.2) := by
    simp [qNeg, qOfKwargs, buildTarget, buildTargets_map_leaf]
  have hm : (pairs.map fun pr => WNode.leaf pr.1 pr.2.1 pr.2.2) ≠ [] := by
    simpa using hp
  cases hml : pairs.map fun pr => WNode.leaf pr.1 pr.2.1 pr.2.2 with
  | nil => exact absurd hml hm
  | cons x xs =>
      rw [hml] at hb
      simp [AsyncQuerySet.excludeM, AsyncQuerySet._clone, Query.chain, Query.addPred,
        addQ, hb, hml, WNode.isEmptyClause, nodeAdd]

/-- C4 witness: on the fresh concrete queryset, chaining two concrete
keyword filters equals the single AND filter, and a concrete exclude
appends the negated predicate node. -/
theorem claim_C4_witness :
    ((qs0.filterM (qOfKwargs [(("id"), ("exact"), 1)])).2.filterM
        (qOfKwargs [(("id"), ("lt"), 5)])).2
      = (qs0.filterM (qAnd2 (qOfKwargs [(("id"), ("exact"), 1)])
          (qOfKwargs [(("id"), ("lt"), 5)]))).2
    ∧ (qs0.excludeM (qOfKwargs [(("id"), ("exact"), 1)])).2.query.whereChildren
      = [.node .and true [.leaf ("id") ("exact") 1]] := by
  have h := claim_C4 qs0 (qOfKwargs [(("id"), ("exact"), 1)])
    (qOfKwargs [(("id"), ("lt"), 5)]) [(("id"), ("exact"), 1)]
  refine ⟨h.1, ?_⟩
  have h2 := h.2.2 (by simp)
  simpa using h2

/-- Setting limits on a specification with fresh marks stores exactly
(low, high). -/
theorem setLimits_fresh (q : Query) (l h : Int) (h1 : q.lowMark = 0)
    (h2 : q.highMark = none) (hlh : l ≤ h) :
    q.setLimits (some l) (some h) = { q with lowMark := l, highMark := some h } := by
  have hmin : min (q.lowMark + h) (q.lowMark + l) = l := by omega
  simp [Query.setLimits, h1, h2, hmin]
  omega

/-- C7: on a queryset with no explicit ordering (and fresh marks), the
first and last terminals execute with injected primary-key ordering,
ascending and descending respectively; when an ordering exists, first
leaves it unchanged while last keeps exactly the same terms and reverses
the direction of each of them; both terminals execute with a one-row
limit. -/
theorem claim_C7 (qs : AsyncQuerySet)
    (hstd : qs.query.standardOrdering = true)
    (h1 : qs.query.lowMark = 0) (h2 : qs.query.highMark = none) :
    (qs.query.orderBy = [] →
      qs.afirstQuery.effOrdering = [("pk")]
      ∧ qs.alastQuery.effOrdering = [("-pk")])
    ∧ (qs.query.orderBy ≠ [] →
      qs.afirstQuery.orderBy = qs.query.orderBy
      ∧ qs.afirstQuery.standardOrdering = qs.query.standardOrdering
      ∧ qs.alastQuery.orderBy = qs.query.orderBy
      ∧ qs.alastQuery.effOrdering = qs.query.effOrdering.map flipDir)
    ∧ (qs.afirstQuery.lowMark = 0 ∧ qs.afirstQuery.highMark = some 1
      ∧ qs.alastQuery.lowMark = 0 ∧ qs.alastQuery.highMark = some 1) := by
  refine ⟨fun he => ?_, fun hne => ?_, ?_⟩
  · constructor <;>
      simp [AsyncQuerySet.afirstQuery, AsyncQuerySet.alastQuery, AsyncQuerySet._clone,
        Query.chain, Query.addOrdering, Query.setLimits, Query.effOrdering,
        he, hstd, h1, h2]
  · have hee : qs.query.orderBy.isEmpty = false := by
      cases ho : qs.query.orderBy with
      | nil => exact absurd ho hne
      | cons a as => rfl
    refine ⟨?_, ?_, ?_, ?_⟩ <;>
      simp [AsyncQuerySet.afirstQuery, AsyncQuerySet.alastQuery, AsyncQuerySet._clone,
        Query.chain, Query.setLimits, Query.effOrdering, hee, hstd, h1, h2]
  · cases hee : qs.query.orderBy.isEmpty <;>
      simp [AsyncQuerySet.afirstQuery, AsyncQuerySet.alastQuery, AsyncQuerySet._clone,
        Query.chain, Query.addOrdering, Query.setLimits, hee, h1, h2]

/-- C7 witness: concretely, the unordered queryset gets ascending pk for
first and descending pk for last with a one-row limit, and on the
concretely ordered queryset last reverses the existing term while first
keeps it. -/
theorem claim_C7_witness :
    qs0.afirstQuery.effOrdering = [("pk")]
    ∧ qs0.alastQuery.effOrdering = [("-pk")]
    ∧ qsOrd.afirstQuery.orderBy = [("view_count")]
    ∧ qsOrd.alastQuery.effOrdering = qsOrd.query.effOrdering.map flipDir
    ∧ qs0.afirstQuery.highMark = some 1 := by
  have h0 := claim_C7 qs0 rfl rfl rfl
  have h1 := claim_C7 qsOrd rfl rfl rfl
  have hne : qsOrd.query.orderBy ≠ [] := by decide
  exact ⟨(h0.1 rfl).1, (h0.1 rfl).2, (h1.2.1 hne).1, (h1.2.1 hne).2.2.2,
    h0.2.2.2.1⟩

/-- C8 counterexample: on a queryset sliced to the range 5..6, one
matching row in the table makes the count terminal return 1 (its COUNT
statement reuses only the WHERE clause and ignores the limit marks) while
the existence terminal — which executes with the slice in effect —
returns false, refuting the claim for every queryset. -/
theorem claim_C8_counterexample :
    qs56.aexists evC db1 = false ∧ qs56.acount evC db1 = 1 :=
  ⟨rfl, rfl⟩

/-- C8 (amended): on every queryset with no limit set, the boolean
existence check (executed with a one-row limit) agrees with positivity of
the count terminal (compiled as a separate COUNT statement over the same
WHERE clause); on sliced querysets the two can disagree because the count
statement ignores the limit marks. -/
theorem claim_C8 (evalW : List WNode → Row → Bool) (db : List Row)
    (qs : AsyncQuerySet) (h1 : qs.query.lowMark = 0) (h2 : qs.query.highMark = none) :
    (qs.aexists evalW db = true ↔ 0 < qs.acount evalW db) := by
  have hfresh := setLimits_fresh qs.query 0 1 h1 h2 (by omega)
  have hrw : qs._clone.query.setLimits (some 0) (some 1)
      = { qs.query with lowMark := 0, highMark := some 1 } := hfresh
  rw [AsyncQuerySet.aexists, hrw]
  cases hf : db.filter (evalW qs.query.whereChildren) with
  | nil =>
      simp [runQuery, applyLimits, AsyncQuerySet.acount, executeCount,
        AsyncQuerySet._clone, Query.chain, hf]
  | cons r rs =>
      simp [runQuery, applyLimits, AsyncQuerySet.acount, executeCount,
        AsyncQuerySet._clone, Query.chain, hf]

/-- C8 witness: on the fresh concrete queryset over the one-row table,
exists returns true and count is positive. -/
theorem claim_C8_witness :
    qs0.aexists evC db1 = true ∧ 0 < qs0.acount evC db1 := by
  have h := claim_C8 evC db1 qs0 rfl rfl
  exact ⟨h.mpr (by decide), by decide⟩

/-- C3: with fresh marks, aget raises DoesNotExist when zero rows match
the filter, raises MultipleObjectsReturned when more than one row
matches, and returns the hydrated unique matching instance otherwise;
the query it executes carries limit marks (0, 2) — a 2-row fetch cap
rather than a full count — so it never fetches more than two rows. -/
theorem claim_C3 (evalW : List WNode → Row → Bool) (db : List Row)
    (qs : AsyncQuerySet) (h1 : qs.query.lowMark = 0) (h2 : qs.query.highMark = none) :
    (db.filter (evalW qs.query.whereChildren) = [] →
      ∃ m, qs.aget evalW db none = .error (.doesNotExist m))
    ∧ (1 < (db.filter (evalW qs.query.whereChildren)).length →
      ∃ m, qs.aget evalW db none = .error (.multipleObjectsReturned m))
    ∧ (∀ r, db.filter (evalW qs.query.whereChildren) = [r] →
      qs.aget evalW db none
        = .ok (fromDb (qs.modelFields.take r.length) (r.take qs.modelFields.length)))
    ∧ ((qs.agetQuery none).lowMark = 0 ∧ (qs.agetQuery none).highMark = some 2)
    ∧ (runQuery evalW db (qs.agetQuery none)).length ≤ 2 := by
  have hq : qs.agetQuery none = { qs.query with lowMark := 0, highMark := some 2 } :=
    setLimits_fresh qs.query 0 2 h1 h2 (by omega)
  have hrows : runQuery evalW db (qs.agetQuery none)
      = (db.filter (evalW qs.query.whereChildren)).take 2 := by
    rw [hq]; simp [runQuery, applyLimits]
  refine ⟨fun h => ?_, fun h => ?_, fun r h => ?_, by rw [hq]; exact ⟨rfl, rfl⟩, ?_⟩
  · exact ⟨qs.objectName ++ (" matching query does not exist."),
      by simp [AsyncQuerySet.aget, hrows, h]⟩
  · cases hf : db.filter (evalW qs.query.whereChildren) with
    | nil => rw [hf] at h; simp at h
    | cons a t =>
        cases t with
        | nil => rw [hf] at h; simp at h
        | cons b t2 =>
            exact ⟨("get() returned more than one ") ++ qs.objectName ++
                (" -- it returned ") ++ toString 2 ++ ("!"),
              by simp [AsyncQuerySet.aget, hrows, hf]⟩
  · simp [AsyncQuerySet.aget, hrows, h, rowsToInstances]
  · rw [hrows]
    exact List.length_take_le 2 (db.filter (evalW qs.query.whereChildren))

/-- C3 witness: on the concrete one-row table the unique match is
returned hydrated. -/
theorem claim_C3_witness :
    qs0.aget evC db1 none = .ok (fromDb articleFields [.intV 1, .strV ("hello")]) := by
  have h := claim_C3 evC db1 qs0 rfl rfl
  exact h.2.2.1 [.intV 1, .strV ("hello")] rfl

/-- Writing a relation slot does not change the database fields of an
instance. -/
theorem setRel_fields (i : Inst) (k : String) (v : Option Inst) :
    (i.setRel k v).fields = i.fields := by
  cases i; rfl

/-- Writing a relation cache entry does not change the database fields of
an instance. -/
theorem setRelCache_fields (i : Inst) (k : String) (v : Option Inst) :
    (i.setRelCache k v).fields = i.fields := by
  cases i; rfl

/-- Hydrating a related branch never changes the database fields of the
instance it hydrates into. -/
theorem hydrateRelated_fields (select : List String) (row : Row) (inst : Inst)
    (info : KlassInfo) : (hydrateRelated select row inst info).fields = inst.fields := by
  cases info with
  | mk fn idx nested =>
      cases fn with
      | none => rfl
      | some f =>
          simp only [hydrateRelated]
          split
          · rfl
          · split
            · exact setRel_fields inst f none
            · rw [setRelCache_fields, setRel_fields]

/-- Hydrating a list of related branches never changes the database
fields of the instance. -/
theorem hydrateAll_fields (select : List String) (row : Row) :
    ∀ (infos : List KlassInfo) (inst : Inst),
      (hydrateAll select row inst infos).fields = inst.fields := by
  intro infos
  induction infos with
  | nil => intro inst; rfl
  | cons i is ih =>
      intro inst
      rw [hydrateAll, ih, hydrateRelated_fields]

/-- C6: for a related branch of the column plan with a field and at least
one selected column, hydration sets the relation slot to absent (and
writes no cache entry and constructs nothing) exactly when every selected
column of the row is NULL; when at least one selected column is non-NULL,
a related instance carrying exactly the selected names and values is
constructed, set on the parent, and recorded in the relation cache. -/
theorem claim_C6 (select : List String) (row : Row) (inst : Inst) (fname : String)
    (idx : List Nat) (nested : List KlassInfo) (hne : idx ≠ []) :
    ((∀ i ∈ idx, row.getD i .nullV = .nullV) →
      (hydrateRelated select row inst (.mk (some fname) idx nested)).getRel fname
          = some none
      ∧ (hydrateRelated select row inst (.mk (some fname) idx nested)).relCache
          = inst.relCache)
    ∧ ((∃ i ∈ idx, row.getD i .nullV ≠ .nullV) →
      ∃ rel,
        (hydrateRelated select row inst (.mk (some fname) idx nested)).getRel fname
            = some (some rel)
        ∧ (hydrateRelated select row inst (.mk (some fname) idx nested)).getRelCache fname
            = some (some rel)
        ∧ rel.fields = (idx.map fun i => select.getD i ("")).zip
            (idx.map fun i => row.getD i .nullV)) := by
  have hee : idx.isEmpty = false := by
    cases hi : idx with
    | nil => exact absurd hi hne
    | cons a as => rfl
  constructor
  · intro hall
    have hcond : ((idx.map fun i => row.getD i .nullV).all
        fun v => decide (v = Value.nullV)) = true := by
      rw [List.all_eq_true]
      intro v hv
      rw [List.mem_map] at hv
      obtain ⟨i, hi, rfl⟩ := hv
      simpa using hall i hi
    simp only [hydrateRelated, hee, Bool.false_eq_true, if_false, hcond, if_true]
    constructor
    · cases inst with
      | mk fs rs c => simp [Inst.setRel, Inst.getRel, Inst.rels, List.lookup]
    · cases inst with
      | mk fs rs c => simp [Inst.setRel, Inst.relCache]
  · intro hsome
    obtain ⟨i, hi, hv⟩ := hsome
    have hcond : ((idx.map fun i => row.getD i .nullV).all
        fun v => decide (v = Value.nullV)) = false := by
      rw [List.all_eq_false]
      exact ⟨row.getD i .nullV, List.mem_map_of_mem _ hi, by simpa using hv⟩
    refine ⟨hydrateAll select row
      (fromDb (idx.map fun i => select.getD i ("")) (idx.map fun i => row.getD i .nullV))
      nested, ?_, ?_, ?_⟩
    · simp only [hydrateRelated, hee, Bool.false_eq_true, if_false, hcond]
      cases inst with
      | mk fs rs c =>
          simp [Inst.setRel, Inst.setRelCache, Inst.getRel, Inst.rels, List.lookup]
    · simp only [hydrateRelated, hee, Bool.false_eq_true, if_false, hcond]
      cases inst with
      | mk fs rs c =>
          simp [Inst.setRel, Inst.setRelCache, Inst.getRelCache, Inst.relCache,
            List.lookup]
    · rw [hydrateAll_fields]
      rfl

/-- C6 witness: hydrating the all-NULL joined author columns of the
concrete miss row sets the author relation of the parent to absent and
writes no cache entry. -/
theorem claim_C6_witness :
    (hydrateRelated selC rowMiss (fromDb [("id")] [.intV 7]) infoAuthor).getRel ("author")
      = some none
    ∧ (hydrateRelated selC rowMiss (fromDb [("id")] [.intV 7]) infoAuthor).relCache
      = [] := by
  have h := claim_C6 selC rowMiss (fromDb [("id")] [.intV 7]) ("author") [1, 2] []
    (by decide)
  have h1 := h.1 (by decide)
  exact ⟨h1.1, h1.2⟩

/-- C10 witness: the fresh concrete queryset is unevaluated, so iteration
and length raise RuntimeError there. -/
theorem claim_C10_witness :
    qs0.iterM = .error (.runtimeError
      ("Cannot iterate synchronously over AsyncQuerySet before it has been evaluated."))
    ∧ qs0.lenM = .error (.runtimeError
      ("Cannot get length of AsyncQuerySet before it has been evaluated.")) :=
  (claim_C10 qs0 evC db1).1 rfl

end TurboOrm
